import Mathlib

/-!
# lorawan-stack: HTTP client helper, CLI authentication check, gateway pool

Shallow embedding of

* `pkg/component/http.go` (`WithTimeout`, `WithTransport`, `HTTPClient`, `HTTPTransport`),
* `cmd/ttn-lw-cli/commands/root.go` (`requireAuth`),
* `pkg/gatewayserver/gwpool` (the pool is only exercised by `gwpool_test.go`; the mock
  `dummyLink` is embedded from the test file, the pool itself from its specification).

Go values `(x, err)` are pairs whose second component is `Option Error` (`none` is `nil`).
Pointers whose nil-ness matters are `Option`s.
-/

/-! ## pkg/component/http.go -/

namespace component

/-- Go `error` values, identified by their message. -/
abbrev Error := String

/-- Go `time.Duration`: a signed count of nanoseconds. -/
abbrev Duration := Int

/-- Go `time.Second`. -/
def Second : Duration := 1000000000

/-- The value `defaultTimeout` of `http.go`: the default timeout for the HTTP client. -/
def defaultTimeout : Duration := 10 * Second

/-- A `*tls.Config`: a name for its certificates and keys, and the field `NextProtos`. -/
structure TLSConfig where
  name : String
  NextProtos : List String
  deriving DecidableEq, Repr

/-- The value of a `*http.Transport`: the one field `http.go` writes, `TLSClientConfig`
(`none` is nil), and all remaining settings, which `http.go` never touches. -/
structure Transport where
  TLSClientConfig : Option TLSConfig
  settings : String
  deriving DecidableEq, Repr

/-- Go `http.RoundTripper`: an interface that holds a `*http.Transport` or some other
implementation (identified by a name). -/
inductive RoundTripper where
  | transport (t : Transport)
  | other (name : String)
  deriving DecidableEq, Repr

/-- The value of a Go `http.Client`, restricted to the fields `http.go` sets. -/
structure Client where
  Timeout : Duration
  Transport : RoundTripper
  deriving DecidableEq, Repr

/-- `HTTPClientOpt` applies an option to the HTTP client: Go `func(*http.Client)`, here the
update it performs on the client value. -/
abbrev HTTPClientOpt := Client → Client

/-- `WithTimeout` sets the HTTP client timeout. -/
def WithTimeout (t : Duration) : HTTPClientOpt :=
  fun c => { c with Timeout := t }

/-- `WithTransport` sets the HTTP client transport. -/
def WithTransport (t : RoundTripper) : HTTPClientOpt :=
  fun c => { c with Transport := t }

/-- Go `context.Context`, identified by a name. -/
abbrev Context := String

/-- The part of `Component` and of its environment that `http.go` uses:
`GetTLSClientConfig` (declared outside `http.go`), the value of the global
`http.DefaultTransport` when `HTTPTransport` is called, and the library method
`(*http.Transport).Clone`, as the transport it returns for a receiver. `Clone` is library
code: it need not return the value of its receiver, since it first runs the HTTP/2
initialisation of the receiver (see `cloneForceHTTP2`). -/
structure Component where
  GetTLSClientConfig : Context → Except Error TLSConfig
  DefaultTransport : Transport
  Clone : Transport → Transport

/-- `HTTPTransport` returns a new `http.RoundTripper` with TLS client configuration: the
clone of `http.DefaultTransport`, on which it sets `TLSClientConfig` only when
`GetTLSClientConfig` succeeded, together with the error of `GetTLSClientConfig`. -/
def Component.HTTPTransport (c : Component) (ctx : Context) : RoundTripper × Option Error :=
  let transport := c.Clone c.DefaultTransport
  match c.GetTLSClientConfig ctx with
  | .ok tlsConfig => (.transport { transport with TLSClientConfig := some tlsConfig }, none)
  | .error err => (.transport transport, some err)

/-- `HTTPClient` returns a new `*http.Client` (always non-nil, hence `some`) with a timeout
and the transport of `HTTPTransport`, after applying the options in order, together with
the error of `HTTPTransport`. -/
def Component.HTTPClient (c : Component) (ctx : Context) (opts : List HTTPClientOpt) :
    Option Client × Option Error :=
  let (transport, err) := c.HTTPTransport ctx
  let client : Client := { Timeout := defaultTimeout, Transport := transport }
  (some (opts.foldl (fun client opt => opt client) client), err)

/-- The options of the specification, as data: which field an option sets. -/
inductive OptSpec where
  | timeout (t : Duration)
  | transport (r : RoundTripper)
  deriving DecidableEq, Repr

/-- The source option that an `OptSpec` stands for. -/
def OptSpec.toOpt : OptSpec → HTTPClientOpt
  | .timeout t => WithTimeout t
  | .transport r => WithTransport r

/-- The timeout an option of the specification sets, if it sets one. -/
def OptSpec.timeout? : OptSpec → Option Duration
  | .timeout t => some t
  | .transport _ => none

/-- The transport an option of the specification sets, if it sets one. -/
def OptSpec.transport? : OptSpec → Option RoundTripper
  | .timeout _ => none
  | .transport r => some r

/-- The timeout the specification assigns to a list of options: the last option that
sets the timeout wins, the default applies when there is none. -/
def specTimeout (dflt : Duration) (specs : List OptSpec) : Duration :=
  ((specs.filterMap OptSpec.timeout?).getLast?).getD dflt

/-- The transport the specification assigns to a list of options: the last option that
sets the transport wins, the default applies when there is none. -/
def specTransport (dflt : RoundTripper) (specs : List OptSpec) : RoundTripper :=
  ((specs.filterMap OptSpec.transport?).getLast?).getD dflt

/-- Applying a list of options to a client, left to right. -/
def applyOpts (opts : List HTTPClientOpt) (client : Client) : Client :=
  opts.foldl (fun client opt => opt client) client

/-- The HTTP/2 defaults that the library puts into a TLS client configuration: `h2` in
front of `NextProtos` and `http/1.1` behind, each unless already there. -/
def http2Defaults (cfg : TLSConfig) : TLSConfig :=
  let protos := if cfg.NextProtos.contains "h2" then cfg.NextProtos
    else "h2" :: cfg.NextProtos
  { cfg with
    NextProtos := if protos.contains "http/1.1" then protos else protos ++ ["http/1.1"] }

/-- The library method `Clone` on a transport with `ForceAttemptHTTP2`, such as
`http.DefaultTransport`: the HTTP/2 initialisation gives the receiver a TLS client
configuration if it has none and the HTTP/2 defaults, and the clone copies it. -/
def cloneForceHTTP2 (t : Transport) : Transport :=
  { t with TLSClientConfig := some (http2Defaults (t.TLSClientConfig.getD ⟨"", []⟩)) }

/-- A component whose TLS client configuration cannot be obtained, in a process whose
`http.DefaultTransport` was not used yet. -/
def failingComponent : Component :=
  { GetTLSClientConfig := fun _ => .error "no TLS configuration",
    DefaultTransport := { TLSClientConfig := none, settings := "default" },
    Clone := cloneForceHTTP2 }

end component

/-! ## cmd/ttn-lw-cli/commands/root.go -/

namespace commands

/-- Go `time.Duration`: a signed 64-bit count of nanoseconds. -/
abbrev Duration := Int

/-- Go `time.Time`, as the instant it denotes: nanoseconds since the epoch. -/
abbrev Time := Int

/-- The largest `time.Duration`. -/
def maxDuration : Duration := 2 ^ 63 - 1

/-- The smallest `time.Duration`. -/
def minDuration : Duration := -(2 ^ 63)

/-- Go `Time.Sub`: the difference `t - u`, saturated to the range of `time.Duration`. -/
def Time.Sub (t u : Time) : Duration :=
  if t - u > maxDuration then maxDuration
  else if t - u < minDuration then minDuration
  else t - u

/-- Go `time.Until(t)`, which is `t.Sub(time.Now())`, with the current time explicit. -/
def Until (now t : Time) : Duration := Time.Sub t now

/-- Go `oauth2.Token`. -/
structure Token where
  AccessToken : String
  TokenType : String
  RefreshToken : String
  Expiry : Time
  deriving DecidableEq, Repr

/-- The dynamic values that the auth cache stores (Go `interface{}`): a string, a
`*oauth2.Token` (possibly a nil pointer), or a list of host names. -/
inductive CacheValue where
  | str (s : String)
  | token (t : Option Token)
  | hosts (hs : List String)
  deriving DecidableEq, Repr

/-- The content of `util.AuthCache` as seen through `cache.Get`: the value stored under
each key, `none` for the nil interface. -/
abbrev AuthCache := String → Option CacheValue

/-- The method `cache.Get(key)`. -/
def AuthCache.Get (cache : AuthCache) (key : String) : Option CacheValue := cache key

/-- An error definition made by `errors.DefineUnauthenticated(name, message)`. -/
structure ErrDefinition where
  code : String
  name : String
  message : String
  deriving DecidableEq, Repr

/-- The value `errUnauthenticated` of `root.go`. -/
def errUnauthenticated : ErrDefinition :=
  { code := "unauthenticated", name := "unauthenticated",
    message := "not authenticated with either API key or OAuth access token" }

/-- The credential held by the `api` package: the arguments of the last `api.SetAuth`
call, `none` while it was never called. -/
abbrev ApiAuth := Option (String × String)

/-- The effect of `api.SetAuth(authType, authValue)`. -/
def SetAuth (authType authValue : String) : ApiAuth := some (authType, authValue)

/-- The type assertion `v.(string)`: the string and `true` when the interface holds a
string, the zero value and `false` otherwise. -/
def assertString : Option CacheValue → String × Bool
  | some (.str s) => (s, true)
  | _ => ("", false)

/-- The type assertion `v.(*oauth2.Token)`: the pointer and `true` when the interface holds
a `*oauth2.Token` (which may be nil), nil and `false` otherwise. -/
def assertToken : Option CacheValue → Option Token × Bool
  | some (.token t) => (t, true)
  | _ => (none, false)

/-- The function `requireAuth` of `root.go`, with the cache content, the current time and
the credential of the `api` package explicit; it returns the error (`none` is nil) and the
credential afterwards. Log output is not modelled. -/
def requireAuth (cache : AuthCache) (now : Time) (auth : ApiAuth) :
    Option ErrDefinition × ApiAuth :=
  let (apiKey, ok) := assertString (cache.Get "api_key")
  if ok && apiKey != "" then
    (none, SetAuth "bearer" apiKey)
  else
    let (token, ok) := assertToken (cache.Get "oauth_token")
    match ok, token with
    | true, some token =>
      if Until now token.Expiry > 0 then
        (none, SetAuth token.TokenType token.AccessToken)
      else
        (some errUnauthenticated, auth)
    | _, _ => (some errUnauthenticated, auth)

/-- The cache holds a non-empty API key string under `api_key`. -/
def hasAPIKey (cache : AuthCache) : Prop :=
  ∃ apiKey : String, cache.Get "api_key" = some (.str apiKey) ∧ apiKey ≠ ""

/-- The cache holds a non-nil OAuth token under `oauth_token` whose expiry is strictly
after `now`. -/
def hasFreshToken (cache : AuthCache) (now : Time) : Prop :=
  ∃ token : Token, cache.Get "oauth_token" = some (.token (some token)) ∧ now < token.Expiry

/-- A cache with an API key and an expired OAuth token. -/
def sampleCache : AuthCache := fun key =>
  if key = "api_key" then some (.str "NNSXS.KEY")
  else if key = "oauth_token" then
    some (.token (some { AccessToken := "at", TokenType := "bearer",
                         RefreshToken := "rt", Expiry := 5 }))
  else none

end commands

/-! ## pkg/gatewayserver/gwpool

`gwpool_test.go` gives the message types, the mock link `dummyLink` and the calls
`NewPool`, `Subscribe`, `Send`. The pool is embedded from sections 3, 4 and 7 of its
specification. -/

namespace gwpool

/-- Go `error` values, identified by their message. -/
abbrev Error := String

/-- Go `time.Duration`: a signed count of nanoseconds. -/
abbrev Duration := Int

/-- Go `time.Millisecond`. -/
def Millisecond : Duration := 1000000

/-- The message `ttnpb.GatewayIdentifier`. -/
structure GatewayIdentifier where
  GatewayID : String
  deriving DecidableEq, Repr

/-- The message `ttnpb.GatewayUp`, with the two fields the test reads. -/
structure GatewayUp where
  GatewayStatus : Option String
  UplinkMessage : List String
  deriving DecidableEq, Repr

/-- The message `ttnpb.DownlinkMessage`; the test only builds the empty one. -/
structure DownlinkMessage where
  deriving DecidableEq, Repr

/-- The message `ttnpb.GatewayDown`. -/
structure GatewayDown where
  DownlinkMessage : Option DownlinkMessage
  deriving DecidableEq, Repr

/-- The mock link of `gwpool_test.go`; `NextUplink` is the content of the channel. -/
structure dummyLink where
  NextUplink : List GatewayUp
  AcceptDownlink : Bool
  AcceptSendingUplinks : Bool
  deriving DecidableEq, Repr

/-- The method `dummyLink.Send` of `gwpool_test.go`: nil when `AcceptDownlink`, the error
`Downlink refused` otherwise. -/
def dummyLink.Send (d : dummyLink) (_ : GatewayDown) : Option Error :=
  if d.AcceptDownlink then none
  else some "Downlink refused"

/-- Modelled from the spec: one call of a Link's `Send` (4.1, 4.3), which is missing from
the sources: the call returns nil or an error after `latency`. -/
structure SendReply where
  latency : Duration
  err : Option Error
  deriving DecidableEq, Repr

/-- Modelled from the spec: the Link capability (4.1), which is missing from the sources.
Only `Send` is a field; what `Receive` returns is supplied by the environment, as the
argument of the pump step `Pool.pumpReceive`. -/
structure Link where
  Send : GatewayDown → SendReply

/-- The mock link as a Link: its `Send` does not block, so it returns at once. -/
def dummyLink.toLink (d : dummyLink) : Link :=
  { Send := fun frame => { latency := 0, err := d.Send frame } }

/-- Modelled from the spec: the error taxonomy of `Send` (7), which is missing from the
sources. -/
inductive SendError where
  | NoRoute
  | DeliveryRefused
  | DeliveryTimedOut
  deriving DecidableEq, Repr

/-- Modelled from the spec: where a pump goroutine (4.2, step 4) stands in its loop, which
is missing from the sources: parked in `Receive`, or holding what `Receive` returned. -/
inductive PumpStatus where
  | parked
  | received (r : Except Error GatewayUp)

/-- Modelled from the spec: the Registration record (3) `{currentLink, outboundChannel,
generation}`, which is missing from the sources. The outbound channel is the sequence of
frames placed on it so far, oldest first, each with the generation captured by the pump
that placed it. -/
structure Registration where
  currentLink : Option Link
  outboundChannel : List (Nat × GatewayUp)
  generation : Nat

/-- Modelled from the spec: the Pool (2, 3, 5), which is missing from the sources: the
default timeout, the registry of identity to Registration, and the running pumps, each
named by its identity and the generation it captured. The logger is not modelled. -/
structure Pool where
  defaultTimeout : Duration
  registrations : GatewayIdentifier → Option Registration
  pumps : GatewayIdentifier → Nat → Option PumpStatus

/-- Modelled from the spec: `NewPool(logger, defaultTimeout)` (6), which is missing from
the sources: it constructs an empty registry. -/
def NewPool (defaultTimeout : Duration) : Pool :=
  { defaultTimeout := defaultTimeout, registrations := fun _ => none,
    pumps := fun _ _ => none }

/-- The generation of an identity; zero while it has no Registration. -/
def Pool.generation (p : Pool) (identity : GatewayIdentifier) : Nat :=
  match p.registrations identity with
  | none => 0
  | some reg => reg.generation

/-- The frames placed so far on the outbound channel of an identity. -/
def Pool.outbound (p : Pool) (identity : GatewayIdentifier) : List (Nat × GatewayUp) :=
  match p.registrations identity with
  | none => []
  | some reg => reg.outboundChannel

/-- The current Link of an identity, if any. -/
def Pool.currentLink (p : Pool) (identity : GatewayIdentifier) : Option Link :=
  match p.registrations identity with
  | none => none
  | some reg => reg.currentLink

/-- Sets the status of the pump of `identity` that captured `gen`; `none` ends it. -/
def Pool.setPump (p : Pool) (identity : GatewayIdentifier) (gen : Nat)
    (st : Option PumpStatus) : Pool :=
  { p with
    pumps := Function.update p.pumps identity (Function.update (p.pumps identity) gen st) }

/-- Modelled from the spec: `Pool.Subscribe(identity, link)` (4.2, steps 1 to 3), which is
missing from the sources: increment and capture the generation, install the link, keep the
outbound channel of an existing Registration or start with a fresh one, start a pump that
captured the generation. The channel it returns is the one read by `Pool.outbound`. -/
def Pool.Subscribe (p : Pool) (identity : GatewayIdentifier) (link : Link) : Pool :=
  let gen := p.generation identity + 1
  let reg : Registration :=
    { currentLink := some link, outboundChannel := p.outbound identity, generation := gen }
  { p with registrations := Function.update p.registrations identity (some reg) }.setPump
    identity gen (some .parked)

/-- Modelled from the spec: `Pool.Send(identity, frame[, timeout])` (4.3, 7), which is
missing from the sources: no Registration or no current Link is NoRoute at once; a Link
whose `Send` blocks longer than the timeout is DeliveryTimedOut; an error of the Link is
DeliveryRefused; otherwise nil. -/
def Pool.Send (p : Pool) (identity : GatewayIdentifier) (frame : GatewayDown)
    (timeout : Option Duration) : Option SendError :=
  match p.registrations identity with
  | none => some .NoRoute
  | some reg =>
    match reg.currentLink with
    | none => some .NoRoute
    | some link =>
      let reply := link.Send frame
      if reply.latency > timeout.getD p.defaultTimeout then some .DeliveryTimedOut
      else
        match reply.err with
        | some _ => some .DeliveryRefused
        | none => none

/-- Modelled from the spec: the call of `Receive` in the pump loop (4.2, step 4) returns
`r` to the pump of `identity` that captured `gen`; missing from the sources. Nothing
happens when no such pump is parked in `Receive`. -/
def Pool.pumpReceive (p : Pool) (identity : GatewayIdentifier) (gen : Nat)
    (r : Except Error GatewayUp) : Pool :=
  match p.pumps identity gen with
  | some .parked => p.setPump identity gen (some (.received r))
  | _ => p

/-- Modelled from the spec: what the pump does with the result of `Receive` (4.2, step 4),
which is missing from the sources. On a frame: when the captured generation is still the
current one the frame is forwarded onto the outbound channel and the pump loops, otherwise
the pump exits without forwarding. On an error: the current Link is cleared only when the
pump is still the current generation, and the pump exits. -/
def Pool.pumpHandle (p : Pool) (identity : GatewayIdentifier) (gen : Nat) : Pool :=
  match p.pumps identity gen with
  | some (.received (.ok frame)) =>
    match p.registrations identity with
    | some reg =>
      if reg.generation = gen then
        let reg := { reg with outboundChannel := reg.outboundChannel ++ [(gen, frame)] }
        { p with registrations := Function.update p.registrations identity (some reg)
        }.setPump identity gen (some .parked)
      else p.setPump identity gen none
    | none => p.setPump identity gen none
  | some (.received (.error _)) =>
    match p.registrations identity with
    | some reg =>
      if reg.generation = gen then
        let reg := { reg with currentLink := none }
        { p with registrations := Function.update p.registrations identity (some reg)
        }.setPump identity gen none
      else p.setPump identity gen none
    | none => p.setPump identity gen none
  | _ => p

/-- One step of the pool: a call of `Subscribe` or `Send`, or a pump moving on. -/
inductive Event where
  | subscribe (identity : GatewayIdentifier) (link : Link)
  | send (identity : GatewayIdentifier) (frame : GatewayDown) (timeout : Option Duration)
  | pumpReceive (identity : GatewayIdentifier) (gen : Nat) (r : Except Error GatewayUp)
  | pumpHandle (identity : GatewayIdentifier) (gen : Nat)

/-- The pool after one step; `Send` leaves the registry as it is. -/
def Pool.step (p : Pool) : Event → Pool
  | .subscribe identity link => p.Subscribe identity link
  | .send _ _ _ => p
  | .pumpReceive identity gen r => p.pumpReceive identity gen r
  | .pumpHandle identity gen => p.pumpHandle identity gen

/-- The pool after a sequence of steps. -/
def Pool.run (p : Pool) (events : List Event) : Pool :=
  events.foldl Pool.step p

/-- The step is a call of `Subscribe` for `identity`. -/
def Event.subscribes (identity : GatewayIdentifier) : Event → Bool
  | .subscribe i _ => decide (i = identity)
  | _ => false

/-- The frames that the pump with captured generation `gen` placed on the channel. -/
def forwardedBy (gen : Nat) (channel : List (Nat × GatewayUp)) : List GatewayUp :=
  (channel.filter (fun entry => entry.1 == gen)).map (fun entry => entry.2)

/-- Every frame on an outbound channel carries a generation that was already reached. -/
def TagsReached (p : Pool) : Prop :=
  ∀ (j : GatewayIdentifier) (entry : Nat × GatewayUp),
    entry ∈ p.outbound j → entry.1 ≤ p.generation j

/-- A mock link that refuses downlinks. -/
def refusingLink : dummyLink :=
  { NextUplink := [], AcceptDownlink := false, AcceptSendingUplinks := true }

/-- A mock link that accepts downlinks. -/
def acceptingLink : dummyLink :=
  { NextUplink := [], AcceptDownlink := true, AcceptSendingUplinks := true }

/-- A link whose `Send` refuses the frame, but only after 5 seconds. -/
def slowRefusingLink : Link :=
  { Send := fun _ => { latency := 5000 * Millisecond, err := some "Downlink refused" } }

/-- A link whose `Send` accepts the frame, but only after 5 seconds. -/
def slowAcceptingLink : Link :=
  { Send := fun _ => { latency := 5000 * Millisecond, err := none } }

/-- The function `downlink` of `gwpool_test.go`: an empty downlink message. -/
def downlink : DownlinkMessage := {}

/-- The frame that the test sends: `GatewayDown{DownlinkMessage: downlink()}`. -/
def sampleDown : GatewayDown := { DownlinkMessage := some downlink }

/-- A status-only uplink frame. -/
def statusFrame : GatewayUp := { GatewayStatus := some "ok", UplinkMessage := [] }

/-- A run in which only the gateway `other` subscribes, while `Send` is called for
`my-kerlink` and pumps move on. -/
def sampleEvents : List Event :=
  [ .subscribe ⟨"other"⟩ acceptingLink.toLink,
    .pumpReceive ⟨"other"⟩ 1 (.ok statusFrame),
    .pumpHandle ⟨"other"⟩ 1,
    .send ⟨"my-kerlink"⟩ sampleDown none,
    .pumpReceive ⟨"my-kerlink"⟩ 1 (.ok statusFrame),
    .pumpHandle ⟨"my-kerlink"⟩ 1 ]

end gwpool

/-! ## Theorems: pkg/component/http.go -/

namespace component

theorem HTTPClient_eq (c : Component) (ctx : Context) (opts : List HTTPClientOpt) :
    c.HTTPClient ctx opts =
      (some (applyOpts opts
        { Timeout := defaultTimeout, Transport := (c.HTTPTransport ctx).1 }),
       (c.HTTPTransport ctx).2) := by
  simp [Component.HTTPClient, applyOpts]

theorem applyOpts_append (xs ys : List HTTPClientOpt) (client : Client) :
    applyOpts (xs ++ ys) client = applyOpts ys (applyOpts xs client) := by
  simp [applyOpts, List.foldl_append]

theorem applyOpts_spec (specs : List OptSpec) (client : Client) :
    applyOpts (specs.map OptSpec.toOpt) client =
      { Timeout := specTimeout client.Timeout specs,
        Transport := specTransport client.Transport specs } := by
  induction specs using List.reverseRecOn with
  | nil => simp [applyOpts, specTimeout, specTransport]
  | append_singleton xs x ih =>
    rw [List.map_append, applyOpts_append, ih]
    cases x <;>
      simp [applyOpts, OptSpec.toOpt, WithTimeout, WithTransport, specTimeout, specTransport,
        List.filterMap_append, OptSpec.timeout?, OptSpec.transport?]

theorem applyOpts_keeps_transport (opts : List HTTPClientOpt)
    (h : ∀ opt ∈ opts, ∀ cl : Client, (opt cl).Transport = cl.Transport) (client : Client) :
    (applyOpts opts client).Transport = client.Transport := by
  induction opts generalizing client with
  | nil => rfl
  | cons o rest ih =>
    have h1 := h o (List.mem_cons_self o rest) client
    have h2 := ih (fun opt hopt => h opt (List.mem_cons_of_mem o hopt)) (o client)
    simpa [applyOpts, h1] using h2

/-- C4 (as stated) fails, at the component whose TLS client configuration cannot be
obtained. `HTTPTransport` returns the clone, which carries the TLS client configuration of
the HTTP/2 initialisation and so is not the `http.DefaultTransport` it was called with; and
with the single option `WithTransport` of another round tripper, `HTTPClient` returns a
client whose transport is that round tripper and not `http.DefaultTransport`. -/
theorem HTTPClient_error_transport_counterexample :
    failingComponent.GetTLSClientConfig "ctx" = .error "no TLS configuration" ∧
    failingComponent.HTTPTransport "ctx" =
      (.transport { TLSClientConfig := some ⟨"", ["h2", "http/1.1"]⟩, settings := "default" },
       some "no TLS configuration") ∧
    (failingComponent.HTTPTransport "ctx").1 ≠ .transport failingComponent.DefaultTransport ∧
    failingComponent.HTTPClient "ctx" [WithTransport (.other "custom")] =
      (some { Timeout := defaultTimeout, Transport := .other "custom" },
       some "no TLS configuration") ∧
    RoundTripper.other "custom" ≠ .transport failingComponent.DefaultTransport := by
  refine ⟨rfl, by decide, by decide, rfl, ?_⟩
  intro h
  cases h

/-- C4 (amended): when obtaining the TLS client configuration fails with `e`,
`HTTPTransport` returns its round tripper together with `e`, and `HTTPClient` returns a
non-nil client together with `e`: the options applied left to right to the client with the
default timeout and the round tripper of `HTTPTransport`. The transport of the client is
that round tripper whenever no option changes the transport. -/
theorem HTTPClient_error_transport (c : Component) (ctx : Context)
    (opts : List HTTPClientOpt) (e : Error)
    (h : c.GetTLSClientConfig ctx = .error e) :
    (c.HTTPTransport ctx).2 = some e ∧
    ∃ client : Client,
      c.HTTPClient ctx opts = (some client, some e) ∧
      client = applyOpts opts
        { Timeout := defaultTimeout, Transport := (c.HTTPTransport ctx).1 } ∧
      ((∀ opt ∈ opts, ∀ cl : Client, (opt cl).Transport = cl.Transport) →
        client.Transport = (c.HTTPTransport ctx).1) := by
  have ht : (c.HTTPTransport ctx).2 = some e := by
    simp [Component.HTTPTransport, h]
  refine ⟨ht, _, ?_, rfl, ?_⟩
  · rw [HTTPClient_eq, ht]
  · intro hk
    exact applyOpts_keeps_transport opts hk _

/-- Witness of C4 (amended): the failing component with the option `WithTimeout`. -/
theorem HTTPClient_error_transport_witness :
    failingComponent.GetTLSClientConfig "ctx" = .error "no TLS configuration" ∧
    ((failingComponent.HTTPTransport "ctx").2 = some "no TLS configuration" ∧
      ∃ client : Client,
        failingComponent.HTTPClient "ctx" [WithTimeout 5] =
          (some client, some "no TLS configuration") ∧
        client = applyOpts [WithTimeout 5]
          { Timeout := defaultTimeout,
            Transport := (failingComponent.HTTPTransport "ctx").1 } ∧
        ((∀ opt ∈ [WithTimeout 5], ∀ cl : Client, (opt cl).Transport = cl.Transport) →
          client.Transport = (failingComponent.HTTPTransport "ctx").1)) :=
  ⟨rfl, HTTPClient_error_transport failingComponent "ctx" [WithTimeout 5]
    "no TLS configuration" rfl⟩

/-- C5: the client returned by `HTTPClient` is the options applied left to right to the
client with a timeout of 10 seconds and the round tripper of `HTTPTransport`; with no
options the timeout is 10 seconds; `WithTimeout t` sets the timeout to `t` and leaves the
transport, `WithTransport r` sets the transport to `r` and leaves the timeout; and for a
list of such options each field holds the value of the last option that sets it. -/
theorem HTTPClient_options (c : Component) (ctx : Context) :
    (∀ opts : List HTTPClientOpt,
      c.HTTPClient ctx opts =
        (some (opts.foldl (fun client opt => opt client)
          { Timeout := 10 * Second, Transport := (c.HTTPTransport ctx).1 }),
         (c.HTTPTransport ctx).2)) ∧
    (c.HTTPClient ctx []).1 =
      some { Timeout := 10000000000, Transport := (c.HTTPTransport ctx).1 } ∧
    (∀ (t : Duration) (cl : Client),
      (WithTimeout t cl).Timeout = t ∧ (WithTimeout t cl).Transport = cl.Transport) ∧
    (∀ (r : RoundTripper) (cl : Client),
      (WithTransport r cl).Transport = r ∧ (WithTransport r cl).Timeout = cl.Timeout) ∧
    (∀ specs : List OptSpec,
      (c.HTTPClient ctx (specs.map OptSpec.toOpt)).1 =
        some { Timeout := specTimeout (10 * Second) specs,
               Transport := specTransport (c.HTTPTransport ctx).1 specs }) := by
  refine ⟨fun opts => ?_, ?_, fun t cl => ⟨rfl, rfl⟩, fun r cl => ⟨rfl, rfl⟩, fun specs => ?_⟩
  · rw [HTTPClient_eq]; rfl
  · rw [HTTPClient_eq]; simp [applyOpts, defaultTimeout, Second]
  · rw [HTTPClient_eq, applyOpts_spec]; rfl

end component

/-! ## Theorems: cmd/ttn-lw-cli/commands/root.go -/

namespace commands

theorem Sub_pos_iff (t u : Int) : Time.Sub t u > 0 ↔ u < t := by
  have hmax : maxDuration = (9223372036854775807 : Int) := by norm_num [maxDuration]
  have hmin : minDuration = (-9223372036854775808 : Int) := by norm_num [minDuration]
  unfold Time.Sub
  rw [hmax, hmin]
  show (if t - u > (9223372036854775807 : Int) then (9223372036854775807 : Int)
    else if t - u < (-9223372036854775808 : Int) then (-9223372036854775808 : Int)
    else t - u) > (0 : Int) ↔ u < t
  split_ifs <;> constructor <;> intro h <;> omega

theorem Until_pos_iff (now t : Time) : Until now t > 0 ↔ now < t :=
  Sub_pos_iff t now

theorem requireAuth_apiKey (cache : AuthCache) (now : Time) (auth : ApiAuth) (apiKey : String)
    (hk : cache.Get "api_key" = some (.str apiKey)) (hne : apiKey ≠ "") :
    requireAuth cache now auth = (none, some ("bearer", apiKey)) := by
  simp [requireAuth, hk, assertString, hne, SetAuth]

theorem requireAuth_noKey (cache : AuthCache) (now : Time) (auth : ApiAuth)
    (hk : ¬ hasAPIKey cache) :
    requireAuth cache now auth =
      match cache.Get "oauth_token" with
      | some (.token (some token)) =>
        if now < token.Expiry then (none, some (token.TokenType, token.AccessToken))
        else (some errUnauthenticated, auth)
      | _ => (some errUnauthenticated, auth) := by
  have hcond : ((assertString (cache.Get "api_key")).2 &&
      (assertString (cache.Get "api_key")).1 != "") = false := by
    rcases hc : cache.Get "api_key" with _ | v
    · simp [assertString]
    · cases v with
      | str s =>
        have : s = "" := by
          by_contra hs
          exact hk ⟨s, hc, hs⟩
        simp [assertString, this]
      | token t => simp [assertString]
      | hosts hs => simp [assertString]
  unfold requireAuth
  simp only [hcond]
  rcases cache.Get "oauth_token" with _ | v
  · simp [assertToken]
  · cases v with
    | str s => simp [assertToken]
    | token t =>
      cases t with
      | none => simp [assertToken]
      | some tok => simp [assertToken, Until_pos_iff, SetAuth]
    | hosts hs => simp [assertToken]

theorem requireAuth_noKey_fst (cache : AuthCache) (now : Time) (auth : ApiAuth)
    (hk : ¬ hasAPIKey cache) :
    ((requireAuth cache now auth).1 = none ↔ hasFreshToken cache now) ∧
    (¬ hasFreshToken cache now → requireAuth cache now auth = (some errUnauthenticated, auth)) := by
  rw [requireAuth_noKey cache now auth hk]
  unfold hasFreshToken
  rcases cache.Get "oauth_token" with _ | v
  · simp
  · cases v with
    | str s => simp
    | hosts hs => simp
    | token t =>
      cases t with
      | none => simp
      | some tok =>
        by_cases hlt : now < tok.Expiry
        · simp [hlt]
        · simp [hlt]

/-- C6: `requireAuth` returns nil exactly when the cache holds a non-empty API key string
under `api_key` or a non-nil OAuth token under `oauth_token` whose expiry is strictly
after now, and returns `errUnauthenticated` otherwise. A non-empty API key is the
credential set, with type `bearer`, whatever token is cached; with an expired token the
credential is left as it was or is the API key. -/
theorem requireAuth_spec (cache : AuthCache) (now : Time) (auth : ApiAuth) :
    ((requireAuth cache now auth).1 = none ↔ hasAPIKey cache ∨ hasFreshToken cache now) ∧
    (¬ (hasAPIKey cache ∨ hasFreshToken cache now) →
      (requireAuth cache now auth).1 = some errUnauthenticated) ∧
    (∀ apiKey : String, cache.Get "api_key" = some (.str apiKey) → apiKey ≠ "" →
      (requireAuth cache now auth).2 = some ("bearer", apiKey)) ∧
    (∀ token : Token, cache.Get "oauth_token" = some (.token (some token)) →
      token.Expiry ≤ now →
      (requireAuth cache now auth).2 = auth ∨
      ∃ apiKey : String, cache.Get "api_key" = some (.str apiKey) ∧ apiKey ≠ "" ∧
        (requireAuth cache now auth).2 = some ("bearer", apiKey)) := by
  by_cases hk : hasAPIKey cache
  · obtain ⟨apiKey, hget, hne⟩ := hk
    have hr := requireAuth_apiKey cache now auth apiKey hget hne
    refine ⟨?_, ?_, ?_, ?_⟩
    · rw [hr]
      exact ⟨fun _ => Or.inl ⟨apiKey, hget, hne⟩, fun _ => rfl⟩
    · intro hno
      exact absurd (Or.inl ⟨apiKey, hget, hne⟩) hno
    · intro k hk2 _
      rw [hget] at hk2
      injection hk2 with hk3
      injection hk3 with hk4
      rw [hr, ← hk4]
    · intro token _ _
      exact Or.inr ⟨apiKey, hget, hne, by rw [hr]⟩
  · obtain ⟨h1, h2⟩ := requireAuth_noKey_fst cache now auth hk
    refine ⟨?_, ?_, ?_, ?_⟩
    · rw [h1]
      exact ⟨Or.inr, fun h => h.resolve_left hk⟩
    · intro hno
      rw [h2 (fun hf => hno (Or.inr hf))]
    · intro k hk2 hne
      exact absurd ⟨k, hk2, hne⟩ hk
    · intro token hget hexp
      left
      have hnf : ¬ hasFreshToken cache now := by
        rintro ⟨tok, hg, hlt⟩
        rw [hget] at hg
        injection hg with hg1
        injection hg1 with hg2
        injection hg2 with hg3
        rw [← hg3] at hlt
        exact absurd hlt (not_lt.mpr hexp)
      rw [h2 hnf]

/-- C6 at a concrete cache: an API key next to an expired token. -/
theorem requireAuth_sample :
    requireAuth sampleCache 10 none = (none, some ("bearer", "NNSXS.KEY")) := by
  apply requireAuth_apiKey
  · rfl
  · decide

end commands

/-! ## Theorems: pkg/gatewayserver/gwpool -/

namespace gwpool

theorem setPump_registrations (p : Pool) (i : GatewayIdentifier) (g : Nat)
    (st : Option PumpStatus) : (p.setPump i g st).registrations = p.registrations := rfl

theorem pumpReceive_registrations (p : Pool) (i : GatewayIdentifier) (g : Nat)
    (r : Except Error GatewayUp) : (p.pumpReceive i g r).registrations = p.registrations := by
  unfold Pool.pumpReceive
  split <;> rfl

theorem Subscribe_registrations_same (p : Pool) (i : GatewayIdentifier) (l : Link) :
    (p.Subscribe i l).registrations i =
      some { currentLink := some l, outboundChannel := p.outbound i,
             generation := p.generation i + 1 } := by
  simp [Pool.Subscribe, Pool.setPump]

theorem Subscribe_registrations_other (p : Pool) (i j : GatewayIdentifier) (l : Link)
    (h : j ≠ i) : (p.Subscribe i l).registrations j = p.registrations j := by
  simp [Pool.Subscribe, Pool.setPump, Function.update_noteq h]

theorem pumpHandle_registrations_other (p : Pool) (i j : GatewayIdentifier) (g : Nat)
    (h : j ≠ i) : (p.pumpHandle i g).registrations j = p.registrations j := by
  unfold Pool.pumpHandle
  split
  · split
    · split <;> simp [Pool.setPump, Function.update_noteq h]
    · rfl
  · split
    · split <;> simp [Pool.setPump, Function.update_noteq h]
    · rfl
  · rfl

theorem pumpHandle_registrations_none (p : Pool) (i : GatewayIdentifier) (g : Nat)
    (h : p.registrations i = none) : (p.pumpHandle i g).registrations i = none := by
  unfold Pool.pumpHandle
  split
  · split
    · simp_all
    · simpa [Pool.setPump] using h
  · split
    · simp_all
    · simpa [Pool.setPump] using h
  · exact h

/-- What `pumpHandle` does to the Registration of its identity. -/
theorem pumpHandle_registrations_some (p : Pool) (i : GatewayIdentifier) (g : Nat)
    (reg : Registration) (h : p.registrations i = some reg) :
    (p.pumpHandle i g).registrations i = some reg ∨
    (reg.generation = g ∧ ∃ frame : GatewayUp,
      p.pumps i g = some (.received (.ok frame)) ∧
      (p.pumpHandle i g).registrations i =
        some { reg with outboundChannel := reg.outboundChannel ++ [(g, frame)] }) ∨
    (reg.generation = g ∧
      (p.pumpHandle i g).registrations i = some { reg with currentLink := none }) := by
  unfold Pool.pumpHandle
  split
  · rename_i frame hp
    split
    · rename_i reg2 hr
      rw [h] at hr
      injection hr with hr
      subst hr
      split
      · rename_i hg
        right; left
        exact ⟨hg, frame, hp, by simp [Pool.setPump]⟩
      · left
        simpa [Pool.setPump] using h
    · left
      simpa [Pool.setPump] using h
  · split
    · rename_i reg2 hr
      rw [h] at hr
      injection hr with hr
      subst hr
      split
      · rename_i hg
        right; right
        exact ⟨hg, by simp [Pool.setPump]⟩
      · left
        simpa [Pool.setPump] using h
    · left
      simpa [Pool.setPump] using h
  · left
    exact h

theorem step_registrations_none (p : Pool) (i : GatewayIdentifier) (e : Event)
    (he : e.subscribes i = false) (h : p.registrations i = none) :
    (p.step e).registrations i = none := by
  cases e with
  | subscribe j l =>
    have hj : i ≠ j := by
      intro hij
      simp [Event.subscribes, hij] at he
    simpa [Pool.step, Subscribe_registrations_other p j i l hj] using h
  | send j f t => exact h
  | pumpReceive j g r => simpa [Pool.step, pumpReceive_registrations] using h
  | pumpHandle j g =>
    by_cases hj : i = j
    · subst hj
      exact pumpHandle_registrations_none p i g h
    · simpa [Pool.step, pumpHandle_registrations_other p j i g hj] using h

theorem run_registrations_none (i : GatewayIdentifier) (events : List Event)
    (he : ∀ e ∈ events, e.subscribes i = false) (p : Pool) (h : p.registrations i = none) :
    (p.run events).registrations i = none := by
  induction events generalizing p with
  | nil => exact h
  | cons e rest ih =>
    have h1 := step_registrations_none p i e (he e (List.mem_cons_self e rest)) h
    exact ih (fun e2 h2 => he e2 (List.mem_cons_of_mem e h2)) (p.step e) h1

/-- The generation and the outbound channel of `j` after one step: both unchanged, or the
generation raised by a `Subscribe`, or one frame appended by the pump whose captured
generation is the current one. -/
theorem step_effect (p : Pool) (j : GatewayIdentifier) (e : Event) :
    ((p.step e).generation j = p.generation j ∧ (p.step e).outbound j = p.outbound j) ∨
    ((p.step e).generation j = p.generation j + 1 ∧ (p.step e).outbound j = p.outbound j) ∨
    ((p.step e).generation j = p.generation j ∧
      ∃ frame : GatewayUp, (p.step e).outbound j = p.outbound j ++ [(p.generation j, frame)]) := by
  cases e with
  | subscribe i l =>
    by_cases hj : j = i
    · subst hj
      right; left
      simp [Pool.step, Pool.generation, Pool.outbound, Subscribe_registrations_same]
    · left
      simp [Pool.step, Pool.generation, Pool.outbound, Subscribe_registrations_other p i j l hj]
  | send i f t => left; exact ⟨rfl, rfl⟩
  | pumpReceive i g r =>
    left
    simp [Pool.step, Pool.generation, Pool.outbound, pumpReceive_registrations]
  | pumpHandle i g =>
    by_cases hj : j = i
    · subst hj
      rcases hreg : p.registrations j with _ | reg
      · left
        simp [Pool.step, Pool.generation, Pool.outbound, hreg,
          pumpHandle_registrations_none p j g hreg]
      · rcases pumpHandle_registrations_some p j g reg hreg with h | ⟨hg, frame, _, h⟩ | ⟨_, h⟩
        · left
          simp [Pool.step, Pool.generation, Pool.outbound, hreg, h]
        · right; right
          refine ⟨?_, frame, ?_⟩
          · simp [Pool.step, Pool.generation, hreg, h]
          · simp [Pool.step, Pool.generation, Pool.outbound, hreg, h, hg]
        · left
          simp [Pool.step, Pool.generation, Pool.outbound, hreg, h]
    · left
      simp [Pool.step, Pool.generation, Pool.outbound, pumpHandle_registrations_other p i j g hj]

theorem step_generation_mono (p : Pool) (j : GatewayIdentifier) (e : Event) :
    p.generation j ≤ (p.step e).generation j := by
  rcases step_effect p j e with ⟨h, _⟩ | ⟨h, _⟩ | ⟨h, _⟩ <;> omega

theorem run_generation_mono (j : GatewayIdentifier) (events : List Event) (p : Pool) :
    p.generation j ≤ (p.run events).generation j := by
  induction events generalizing p with
  | nil => exact le_refl _
  | cons e rest ih => exact le_trans (step_generation_mono p j e) (ih (p.step e))

theorem forwardedBy_append_ne (g g2 : Nat) (channel : List (Nat × GatewayUp))
    (frame : GatewayUp) (h : g2 ≠ g) :
    forwardedBy g (channel ++ [(g2, frame)]) = forwardedBy g channel := by
  simp [forwardedBy, List.filter_append, List.filter_cons, h]

theorem step_forwardedBy_stale (p : Pool) (j : GatewayIdentifier) (g : Nat) (e : Event)
    (h : g < p.generation j) :
    forwardedBy g ((p.step e).outbound j) = forwardedBy g (p.outbound j) := by
  rcases step_effect p j e with ⟨_, ho⟩ | ⟨_, ho⟩ | ⟨_, frame, ho⟩
  · rw [ho]
  · rw [ho]
  · rw [ho]
    exact forwardedBy_append_ne g _ _ frame (by omega)

theorem run_forwardedBy_stale (j : GatewayIdentifier) (g : Nat) (events : List Event)
    (p : Pool) (h : g < p.generation j) :
    forwardedBy g ((p.run events).outbound j) = forwardedBy g (p.outbound j) := by
  induction events generalizing p with
  | nil => rfl
  | cons e rest ih =>
    have h1 : g < (p.step e).generation j := lt_of_lt_of_le h (step_generation_mono p j e)
    have h2 := ih (p.step e) h1
    have h3 := step_forwardedBy_stale p j g e h
    show forwardedBy g (((p.step e).run rest).outbound j) = forwardedBy g (p.outbound j)
    rw [h2, h3]

theorem step_TagsReached (p : Pool) (e : Event) (h : TagsReached p) :
    TagsReached (p.step e) := by
  intro j entry hin
  rcases step_effect p j e with ⟨hg, ho⟩ | ⟨hg, ho⟩ | ⟨hg, frame, ho⟩
  · rw [ho] at hin; rw [hg]; exact h j entry hin
  · rw [ho] at hin; rw [hg]; exact Nat.le_succ_of_le (h j entry hin)
  · rw [ho] at hin; rw [hg]
    rcases List.mem_append.mp hin with hin | hin
    · exact h j entry hin
    · simp at hin
      rw [hin]

theorem run_TagsReached (events : List Event) (p : Pool) (h : TagsReached p) :
    TagsReached (p.run events) := by
  induction events generalizing p with
  | nil => exact h
  | cons e rest ih => exact ih (p.step e) (step_TagsReached p e h)

theorem NewPool_TagsReached (t : Duration) : TagsReached (NewPool t) := by
  intro j entry hin
  simp [NewPool, Pool.outbound] at hin

theorem forwardedBy_fresh (p : Pool) (j : GatewayIdentifier) (h : TagsReached p) :
    forwardedBy (p.generation j + 1) (p.outbound j) = [] := by
  simp only [forwardedBy, List.map_eq_nil_iff, List.filter_eq_nil_iff]
  intro entry hin
  have := h j entry hin
  simp
  omega

/-- What `pumpHandle` does to the outbound channel of its identity: nothing, or it appends
the frame held by the pump, and then the captured generation is the current one. -/
theorem pumpHandle_outbound (p : Pool) (i : GatewayIdentifier) (g : Nat) :
    (p.pumpHandle i g).outbound i = p.outbound i ∨
    (p.generation i = g ∧ ∃ frame : GatewayUp,
      p.pumps i g = some (.received (.ok frame)) ∧
      (p.pumpHandle i g).outbound i = p.outbound i ++ [(g, frame)]) := by
  rcases hreg : p.registrations i with _ | reg
  · left
    simp [Pool.outbound, hreg, pumpHandle_registrations_none p i g hreg]
  · rcases pumpHandle_registrations_some p i g reg hreg with h | ⟨hg, frame, hp, h⟩ | ⟨_, h⟩
    · left
      simp [Pool.outbound, hreg, h]
    · right
      exact ⟨by simp [Pool.generation, hreg, hg], frame, hp, by simp [Pool.outbound, hreg, h]⟩
    · left
      simp [Pool.outbound, hreg, h]

theorem Subscribe_generation (p : Pool) (i : GatewayIdentifier) (l : Link) :
    (p.Subscribe i l).generation i = p.generation i + 1 := by
  simp [Pool.generation, Subscribe_registrations_same]

theorem Subscribe_outbound (p : Pool) (i : GatewayIdentifier) (l : Link) :
    (p.Subscribe i l).outbound i = p.outbound i := by
  simp [Pool.outbound, Subscribe_registrations_same]

/-- C1: on a pool made by `NewPool` and run through any steps none of which is a
`Subscribe` for `identity`, `Send` to `identity` returns NoRoute (so neither nil nor
DeliveryRefused nor DeliveryTimedOut), for every frame and every timeout. -/
theorem Send_never_subscribed (defaultTimeout : Duration) (events : List Event)
    (identity : GatewayIdentifier)
    (h : ∀ e ∈ events, e.subscribes identity = false)
    (frame : GatewayDown) (timeout : Option Duration) :
    ((NewPool defaultTimeout).run events).Send identity frame timeout = some .NoRoute ∧
    ((NewPool defaultTimeout).run events).Send identity frame timeout ≠ none ∧
    ((NewPool defaultTimeout).run events).Send identity frame timeout
      ≠ some .DeliveryRefused ∧
    ((NewPool defaultTimeout).run events).Send identity frame timeout
      ≠ some .DeliveryTimedOut := by
  have hreg := run_registrations_none identity events h (NewPool defaultTimeout) rfl
  have hs : ((NewPool defaultTimeout).run events).Send identity frame timeout
      = some .NoRoute := by
    simp [Pool.Send, hreg]
  rw [hs]
  exact ⟨rfl, by simp, by simp, by simp⟩

/-- Witness of C1: `my-kerlink` never subscribes in `sampleEvents`. -/
theorem Send_never_subscribed_witness :
    (∀ e ∈ sampleEvents, e.subscribes ⟨"my-kerlink"⟩ = false) ∧
    (((NewPool Millisecond).run sampleEvents).Send ⟨"my-kerlink"⟩ sampleDown (some 0)
        = some .NoRoute ∧
      ((NewPool Millisecond).run sampleEvents).Send ⟨"my-kerlink"⟩ sampleDown (some 0)
        ≠ none ∧
      ((NewPool Millisecond).run sampleEvents).Send ⟨"my-kerlink"⟩ sampleDown (some 0)
        ≠ some .DeliveryRefused ∧
      ((NewPool Millisecond).run sampleEvents).Send ⟨"my-kerlink"⟩ sampleDown (some 0)
        ≠ some .DeliveryTimedOut) :=
  ⟨by decide,
   Send_never_subscribed Millisecond sampleEvents ⟨"my-kerlink"⟩ (by decide) sampleDown (some 0)⟩

theorem run_outbound_suffix (j : GatewayIdentifier) (g : Nat) (events : List Event)
    (p : Pool) (h : g < p.generation j) :
    ∃ suffix : List (Nat × GatewayUp),
      (p.run events).outbound j = p.outbound j ++ suffix ∧
      ∀ entry ∈ suffix, g < entry.1 := by
  induction events generalizing p with
  | nil => exact ⟨[], by simp [Pool.run], by simp⟩
  | cons e rest ih =>
    have h1 : g < (p.step e).generation j := lt_of_lt_of_le h (step_generation_mono p j e)
    obtain ⟨suffix, hs, htag⟩ := ih (p.step e) h1
    have hrun : (p.run (e :: rest)).outbound j = ((p.step e).run rest).outbound j := rfl
    rcases step_effect p j e with ⟨_, ho⟩ | ⟨_, ho⟩ | ⟨_, frame, ho⟩
    · exact ⟨suffix, by rw [hrun, hs, ho], htag⟩
    · exact ⟨suffix, by rw [hrun, hs, ho], htag⟩
    · refine ⟨(p.generation j, frame) :: suffix, ?_, ?_⟩
      · rw [hrun, hs, ho]
        simp
      · intro entry hin
        rcases List.mem_cons.mp hin with hin | hin
        · rw [hin]
          exact h
        · exact htag entry hin

/-- C2: start from `NewPool`, run any steps, call `Subscribe(identity, linkA)`, which
starts the pump of generation `gA`, run any steps, call `Subscribe(identity, linkB)`, run
any steps. No frame on the channel carried `gA` before linkA subscribed, so the frames
with `gA` are those of linkA's pump; from the moment linkB is installed the current
generation stays above `gA`, and every frame placed on the outbound channel from then on
comes from a pump with a later generation: the frames forwarded by linkA's pump are the
ones it had forwarded when linkB was installed, whatever its `Receive` returns afterwards.
And in every state a pump places a frame on the channel only when the generation it
captured is the current generation of the identity. -/
theorem handoff_stale_pump_never_forwards (t : Duration) (pre mid late : List Event)
    (identity : GatewayIdentifier) (linkA linkB : Link) :
    (((NewPool t).run pre).Subscribe identity linkA).generation identity
      = ((NewPool t).run pre).generation identity + 1 ∧
    forwardedBy (((NewPool t).run pre).generation identity + 1)
      (((NewPool t).run pre).outbound identity) = [] ∧
    ((NewPool t).run pre).generation identity + 1 <
      ((((((NewPool t).run pre).Subscribe identity linkA).run mid).Subscribe
        identity linkB).run late).generation identity ∧
    (∃ suffix : List (Nat × GatewayUp),
      ((((((NewPool t).run pre).Subscribe identity linkA).run mid).Subscribe
        identity linkB).run late).outbound identity
        = ((((NewPool t).run pre).Subscribe identity linkA).run mid).outbound identity
          ++ suffix ∧
      ∀ entry ∈ suffix, ((NewPool t).run pre).generation identity + 1 < entry.1) ∧
    forwardedBy (((NewPool t).run pre).generation identity + 1)
      (((((((NewPool t).run pre).Subscribe identity linkA).run mid).Subscribe
        identity linkB).run late).outbound identity)
      = forwardedBy (((NewPool t).run pre).generation identity + 1)
        (((((NewPool t).run pre).Subscribe identity linkA).run mid).outbound identity) ∧
    (∀ (p : Pool) (g : Nat),
      (p.pumpHandle identity g).outbound identity = p.outbound identity ∨
      (p.generation identity = g ∧ ∃ frame : GatewayUp,
        p.pumps identity g = some (.received (.ok frame)) ∧
        (p.pumpHandle identity g).outbound identity
          = p.outbound identity ++ [(g, frame)])) := by
  have hA := Subscribe_generation ((NewPool t).run pre) identity linkA
  have hM := run_generation_mono identity mid (((NewPool t).run pre).Subscribe identity linkA)
  have hB := Subscribe_generation
    ((((NewPool t).run pre).Subscribe identity linkA).run mid) identity linkB
  have hlt : ((NewPool t).run pre).generation identity + 1 <
      (((((NewPool t).run pre).Subscribe identity linkA).run mid).Subscribe
        identity linkB).generation identity := by omega
  refine ⟨hA, ?_, ?_, ?_, ?_, fun p g => pumpHandle_outbound p identity g⟩
  · exact forwardedBy_fresh _ identity (run_TagsReached pre _ (NewPool_TagsReached t))
  · exact lt_of_lt_of_le hlt (run_generation_mono identity late _)
  · obtain ⟨suffix, hs, htag⟩ := run_outbound_suffix identity _ late _ hlt
    exact ⟨suffix, by rw [hs, Subscribe_outbound], htag⟩
  · rw [run_forwardedBy_stale identity _ late _ hlt, Subscribe_outbound]

theorem Send_of_currentLink (p : Pool) (identity : GatewayIdentifier) (link : Link)
    (frame : GatewayDown) (timeout : Option Duration)
    (hl : p.currentLink identity = some link) :
    p.Send identity frame timeout =
      if (link.Send frame).latency > timeout.getD p.defaultTimeout then some .DeliveryTimedOut
      else
        match (link.Send frame).err with
        | some _ => some .DeliveryRefused
        | none => none := by
  unfold Pool.currentLink at hl
  unfold Pool.Send
  rcases hreg : p.registrations identity with _ | reg
  · simp [hreg] at hl
  · simp only [hreg] at hl
    simp [hl]

/-- C3 (as stated) fails: a current Link whose `Send` returns its refusal error after
5 seconds makes `Pool.Send` with a timeout of 50 milliseconds return DeliveryTimedOut, not
DeliveryRefused; and a current Link whose `Send` returns nil after 5 seconds makes it
return DeliveryTimedOut, not nil. -/
theorem Send_refused_counterexample :
    ((NewPool Millisecond).Subscribe ⟨"gw-1"⟩ slowRefusingLink).currentLink ⟨"gw-1"⟩
      = some slowRefusingLink ∧
    (slowRefusingLink.Send sampleDown).err = some "Downlink refused" ∧
    ((NewPool Millisecond).Subscribe ⟨"gw-1"⟩ slowRefusingLink).Send
      ⟨"gw-1"⟩ sampleDown (some (50 * Millisecond)) = some .DeliveryTimedOut ∧
    ((NewPool Millisecond).Subscribe ⟨"gw-1"⟩ slowRefusingLink).Send
      ⟨"gw-1"⟩ sampleDown (some (50 * Millisecond)) ≠ some .DeliveryRefused ∧
    ((NewPool Millisecond).Subscribe ⟨"gw-1"⟩ slowAcceptingLink).currentLink ⟨"gw-1"⟩
      = some slowAcceptingLink ∧
    (slowAcceptingLink.Send sampleDown).err = none ∧
    ((NewPool Millisecond).Subscribe ⟨"gw-1"⟩ slowAcceptingLink).Send
      ⟨"gw-1"⟩ sampleDown (some (50 * Millisecond)) = some .DeliveryTimedOut ∧
    ((NewPool Millisecond).Subscribe ⟨"gw-1"⟩ slowAcceptingLink).Send
      ⟨"gw-1"⟩ sampleDown (some (50 * Millisecond)) ≠ none := by
  refine ⟨?_, rfl, by decide, by decide, ?_, rfl, by decide, by decide⟩
  · simp [Pool.currentLink, Subscribe_registrations_same]
  · simp [Pool.currentLink, Subscribe_registrations_same]

/-- C3 (amended): when the current Link of an identity returns from `Send` within the
timeout, `Pool.Send` returns DeliveryRefused if the Link returned an error and nil if the
Link returned nil; DeliveryRefused differs from DeliveryTimedOut and from NoRoute. The mock
`dummyLink` returns its refusal error exactly when `AcceptDownlink` is false and nil
exactly when it is true, so with the mock as current Link `Pool.Send` is nil or
DeliveryRefused accordingly. -/
theorem Send_refused_or_accepted (p : Pool) (identity : GatewayIdentifier) (link : Link)
    (frame : GatewayDown) (timeout : Option Duration)
    (hl : p.currentLink identity = some link)
    (hb : (link.Send frame).latency ≤ timeout.getD p.defaultTimeout) :
    (∀ e : Error, (link.Send frame).err = some e →
      p.Send identity frame timeout = some .DeliveryRefused) ∧
    ((link.Send frame).err = none → p.Send identity frame timeout = none) ∧
    SendError.DeliveryRefused ≠ SendError.DeliveryTimedOut ∧
    SendError.DeliveryRefused ≠ SendError.NoRoute ∧
    (∀ (d : dummyLink) (f : GatewayDown),
      (d.Send f = some "Downlink refused" ↔ d.AcceptDownlink = false) ∧
      (d.Send f = none ↔ d.AcceptDownlink = true)) ∧
    (∀ d : dummyLink, link = d.toLink →
      p.Send identity frame timeout
        = if d.AcceptDownlink then none else some .DeliveryRefused) := by
  have hs := Send_of_currentLink p identity link frame timeout hl
  have hnot : ¬ (link.Send frame).latency > timeout.getD p.defaultTimeout := not_lt.mpr hb
  rw [if_neg hnot] at hs
  refine ⟨?_, ?_, by decide, by decide, ?_, ?_⟩
  · intro e he
    rw [hs, he]
  · intro he
    rw [hs, he]
  · intro d f
    cases hd : d.AcceptDownlink <;> simp [dummyLink.Send, hd]
  · intro d hd
    subst hd
    rw [hs]
    cases hacc : d.AcceptDownlink <;> simp [dummyLink.toLink, dummyLink.Send, hacc]

/-- Witness of C3: the pool of the test with a refusing mock link subscribed. -/
theorem Send_refused_or_accepted_witness :
    ((NewPool Millisecond).Subscribe ⟨"my-kerlink"⟩ refusingLink.toLink).currentLink
        ⟨"my-kerlink"⟩ = some refusingLink.toLink ∧
    (refusingLink.toLink.Send sampleDown).latency ≤ Millisecond ∧
    ((NewPool Millisecond).Subscribe ⟨"my-kerlink"⟩ refusingLink.toLink).Send
      ⟨"my-kerlink"⟩ sampleDown none = some .DeliveryRefused :=
  ⟨by simp [Pool.currentLink, Subscribe_registrations_same],
   by simp [dummyLink.toLink, Millisecond],
   (Send_refused_or_accepted
      ((NewPool Millisecond).Subscribe ⟨"my-kerlink"⟩ refusingLink.toLink)
      ⟨"my-kerlink"⟩ refusingLink.toLink sampleDown none
      (by simp [Pool.currentLink, Subscribe_registrations_same])
      (by simp [dummyLink.toLink, NewPool, Pool.Subscribe, Pool.setPump, Millisecond])).1
    "Downlink refused" rfl⟩

/-- The hand-off of the specification, run: linkA's pump forwards one frame, linkB is
installed while the pump holds a second frame and a third is still to come; neither
reaches the channel, the frame of linkB's pump does. -/
theorem handoff_scenario :
    ((NewPool Millisecond).run
      [ .subscribe ⟨"gw-1"⟩ acceptingLink.toLink,
        .pumpReceive ⟨"gw-1"⟩ 1 (.ok ⟨some "a1", []⟩),
        .pumpHandle ⟨"gw-1"⟩ 1,
        .pumpReceive ⟨"gw-1"⟩ 1 (.ok ⟨some "a2", []⟩),
        .subscribe ⟨"gw-1"⟩ refusingLink.toLink,
        .pumpHandle ⟨"gw-1"⟩ 1,
        .pumpReceive ⟨"gw-1"⟩ 1 (.ok ⟨some "a3", []⟩),
        .pumpHandle ⟨"gw-1"⟩ 1,
        .pumpReceive ⟨"gw-1"⟩ 2 (.ok ⟨some "b1", []⟩),
        .pumpHandle ⟨"gw-1"⟩ 2 ]).outbound ⟨"gw-1"⟩
      = [(1, ⟨some "a1", []⟩), (2, ⟨some "b1", []⟩)] := by
  decide

/-- The disconnect scenario of the specification, run: after `Subscribe` with an accepting
link `Send` returns nil; once the link's `Receive` has failed, `Send` returns NoRoute; a
link slower than the timeout gives DeliveryTimedOut. -/
theorem disconnect_scenario :
    ((NewPool Millisecond).run [.subscribe ⟨"gw-1"⟩ acceptingLink.toLink]).Send
        ⟨"gw-1"⟩ sampleDown none = none ∧
    ((NewPool Millisecond).run
      [ .subscribe ⟨"gw-1"⟩ acceptingLink.toLink,
        .pumpReceive ⟨"gw-1"⟩ 1 (.error "closed"),
        .pumpHandle ⟨"gw-1"⟩ 1 ]).Send ⟨"gw-1"⟩ sampleDown none = some .NoRoute ∧
    ((NewPool Millisecond).run
      [ .subscribe ⟨"gw-1"⟩ ⟨fun _ => ⟨5000 * Millisecond, none⟩⟩ ]).Send
        ⟨"gw-1"⟩ sampleDown (some (50 * Millisecond)) = some .DeliveryTimedOut := by
  decide

end gwpool
